import Mathlib

/-!
Verification of the document-intelligence extraction pipeline
(`src/Backend/main.py`): the field-extraction regexes (`extract_fields`),
the two-phase PDF text extraction (`extract_text_from_pdf`), and the media
type dispatch of the `upload` handler.

Python regular expressions are modelled by a deep-embedded regex AST
together with a backtracking matcher that returns the list of all matches
at a position in Python priority order (leftmost alternative first, greedy
quantifiers longest first); `re.search` is then "first position whose
match list is nonempty, take the head".
-/

namespace DocIntel

abbrev Text := List Char

/-- Python whitespace as matched by the regex class `\s` and stripped by
`str.strip` (ASCII fragment, which covers the documents in scope). -/
def pyWs (c : Char) : Bool :=
  c = ' ' || c = '\t' || c = '\n' || c = '\r' || c = '\x0b' || c = '\x0c'

/-- ASCII decimal digit: the literal `[0-9]` class. -/
def isDigitC (c : Char) : Bool := '0' ≤ c && c ≤ '9'

/-- The Unicode decimal-digit ranges (general category Nd), as inclusive
code-point intervals: the character set matched by the Unicode-aware `\d`
of a Python pattern over `str`. -/
def ndRanges : List (Nat × Nat) := [(48, 57), (1632, 1641), (1776, 1785), (1984, 1993), (2406, 2415), (2534, 2543), (2662, 2671), (2790, 2799), (2918, 2927), (3046, 3055), (3174, 3183), (3302, 3311), (3430, 3439), (3558, 3567), (3664, 3673), (3792, 3801), (3872, 3881), (4160, 4169), (4240, 4249), (6112, 6121), (6160, 6169), (6470, 6479), (6608, 6617), (6784, 6793), (6800, 6809), (6992, 7001), (7088, 7097), (7232, 7241), (7248, 7257), (42528, 42537), (43216, 43225), (43264, 43273), (43472, 43481), (43504, 43513), (43600, 43609), (44016, 44025), (65296, 65305), (66720, 66729), (68912, 68921), (69734, 69743), (69872, 69881), (69942, 69951), (70096, 70105), (70384, 70393), (70736, 70745), (70864, 70873), (71248, 71257), (71360, 71369), (71472, 71481), (71904, 71913), (72016, 72025), (72784, 72793), (73040, 73049), (73120, 73129), (92768, 92777), (92864, 92873), (93008, 93017), (120782, 120831), (123200, 123209), (123632, 123641), (125264, 125273), (130032, 130041)]

/-- Unicode decimal digit (category Nd): Python's `\d`. -/
def isPyDigit (c : Char) : Bool :=
  ndRanges.any fun r => r.1 ≤ c.toNat && c.toNat ≤ r.2

/-- ASCII letter. -/
def isAlphaC (c : Char) : Bool := ('A' ≤ c && c ≤ 'Z') || ('a' ≤ c && c ≤ 'z')

/-- Word character for the `\b` boundary (`[A-Za-z0-9_]`). -/
def isWordC (c : Char) : Bool := isAlphaC c || isDigitC c || c = '_'

/-- ASCII lower-casing, for the `re.I` flag of the invoice rule. -/
def lowerAscii (c : Char) : Char :=
  if 'A' ≤ c && c ≤ 'Z' then Char.ofNat (c.toNat + 32) else c

/-- Python `str.strip()`: drop leading and trailing whitespace. -/
def pyStrip (s : Text) : Text :=
  ((s.dropWhile pyWs).reverse.dropWhile pyWs).reverse

/-- Regex abstract syntax: the constructs used by the four rules of
`extract_fields`. `nlb` is a single-character negative lookbehind
(`(?<!…)`), `wb` the word boundary `\b`, `grp` a capturing group. -/
inductive RE where
  | eps
  | cls (f : Char → Bool)
  | cat (a b : RE)
  | alt (a b : RE)
  | star (a : RE)
  | grp (i : Nat) (a : RE)
  | nlb (f : Char → Bool)
  | wb

/-- Captured group spans: `(index, start, stop)`, most recently closed first. -/
abbrev Caps := List (Nat × Nat × Nat)

/-- Greedy star iteration over an arbitrary single-step matcher `body`:
try one more repetition first (longest match has highest priority), then
the zero-repetition outcome.  A repetition that does not advance the
position is cut off; `fuel` bounds the number of repetitions, and a value
of `length + 1` can never be exhausted because every kept repetition
advances the position. -/
def starRun (body : Nat → Caps → List (Nat × Caps)) :
    Nat → Nat → Caps → List (Nat × Caps)
  | 0, p, c => [(p, c)]
  | fuel + 1, p, c =>
    ((body p c).flatMap fun r =>
      if r.1 = p then [] else starRun body fuel r.1 r.2) ++ [(p, c)]

/-- All ways the pattern can match starting at position `p`, as
`(end position, captures)`, listed in Python backtracking priority order:
for `alt` the left alternative's matches come first, for `star` the
longest repetitions come first, so the head of the list is the match a
Python backtracking engine commits to. -/
def run (s : Text) : RE → Nat → Caps → List (Nat × Caps)
  | .eps, p, c => [(p, c)]
  | .cls f, p, c =>
    match s[p]? with
    | some ch => if f ch then [(p + 1, c)] else []
    | none => []
  | .cat a b, p, c =>
    (run s a p c).flatMap fun r => run s b r.1 r.2
  | .alt a b, p, c => run s a p c ++ run s b p c
  | .star a, p, c => starRun (fun q c' => run s a q c') (s.length + 1) p c
  | .grp i a, p, c =>
    (run s a p c).map fun r => (r.1, (i, p, r.1) :: r.2)
  | .nlb f, p, c =>
    match p with
    | 0 => [(p, c)]
    | q + 1 =>
      match s[q]? with
      | some ch => if f ch then [] else [(p, c)]
      | none => [(p, c)]
  | .wb, p, c =>
    let before := match p with
      | 0 => false
      | q + 1 => match s[q]? with
        | some ch => isWordC ch
        | none => false
    let after := match s[p]? with
      | some ch => isWordC ch
      | none => false
    if before ≠ after then [(p, c)] else []

/-- Scan positions `p, p+1, …` (at most `steps` of them) and return the
first position with a nonempty match list, together with the highest
priority match there — the semantics of Python `re.search`. -/
def searchAux (s : Text) (re : RE) : Nat → Nat → Option (Nat × Nat × Caps)
  | 0, _ => none
  | steps + 1, p =>
    match run s re p [] with
    | r :: _ => some (p, r.1, r.2)
    | [] => searchAux s re steps (p + 1)

/-- Python `re.search`: leftmost match as `(start, stop, captures)`. -/
def reSearch (s : Text) (re : RE) : Option (Nat × Nat × Caps) :=
  searchAux s re (s.length + 1) 0

/-- The substring `s[a:b]`. -/
def slice (s : Text) (a b : Nat) : Text := (s.drop a).take (b - a)

/-- Span of a capture group in a match's captures. -/
def capSpan (c : Caps) (i : Nat) : Option (Nat × Nat) :=
  (c.find? fun t => t.1 == i).map fun t => t.2

/-! Regex combinators mirroring the Python syntax. -/

/-- `x?` (greedy). -/
def opt (a : RE) : RE := .alt a .eps

/-- `x+` (greedy). -/
def plus (a : RE) : RE := .cat a (.star a)

def catAll (l : List RE) : RE := l.foldr .cat .eps

/-- A literal character. -/
def lit (c : Char) : RE := .cls (fun x => x = c)

/-- A literal character under `re.I`. -/
def litCI (c : Char) : RE := .cls (fun x => lowerAscii x = lowerAscii c)

/-- A literal string. -/
def strRE (cs : Text) : RE := catAll (cs.map lit)

/-- A literal string under `re.I`. -/
def strCI (cs : Text) : RE := catAll (cs.map litCI)

/-! ## The four rules of `extract_fields` (main.py lines 50–60) -/

def wsC : RE := .cls pyWs
def digitC : RE := .cls isDigitC
def uniDigitC : RE := .cls isPyDigit

/-- Token class `[A-Za-z0-9\-_/]` of the invoice rule. -/
def invTok (c : Char) : Bool :=
  isAlphaC c || isDigitC c || c = '-' || c = '_' || c = '/'

/-- `(invoice\s*(?:no|#|number)?\s*[:\-]?\s*)([A-Za-z0-9\-_/]+)` with `re.I`. -/
def invoiceRE : RE :=
  .cat
    (.grp 1 (catAll [strCI "invoice".data, .star wsC,
      opt (.alt (strCI "no".data) (.alt (lit '#') (strCI "number".data))),
      .star wsC, opt (.cls (fun c => c = ':' || c = '-')), .star wsC]))
    (.grp 2 (plus (.cls invTok)))

/-- The rupee alternative in the amount rule's marker: the source file
stores the mojibake bytes C3 A2 E2 80 9A C2 B9, i.e. the three characters
U+00E2 U+201A U+00B9. -/
def rupeeMoji : Text := ['â', '‚', '¹']

/-- `(?:USD|INR|Rs\.?|â‚¹|\$)`, alternatives in source order. -/
def markerRE : RE :=
  .alt (strRE "USD".data)
    (.alt (strRE "INR".data)
      (.alt (.cat (strRE "Rs".data) (opt (lit '.')))
        (.alt (strRE rupeeMoji) (lit '$'))))

/-- `[0-9]{1,3}` (greedy: three digits tried first). -/
def rep13d : RE := .cat digitC (opt (.cat digitC (opt digitC)))

/-- `(?:[, ]?[0-9]{3})` — the thousands-group body. -/
def thouGrp : RE :=
  .cat (opt (.cls (fun c => c = ',' || c = ' '))) (catAll [digitC, digitC, digitC])

/-- `(?:\.[0-9]{1,2})` — the decimal part. -/
def decPart : RE := .cat (lit '.') (.cat digitC (opt digitC))

/-- `(?<!\d)(?:USD|INR|Rs\.?|â‚¹|\$)?\s?([0-9]{1,3}(?:[, ]?[0-9]{3})*(?:\.[0-9]{1,2})?)`.
The lookbehind's `\d` is Unicode-aware (category Nd), while the number
itself uses the literal ASCII class `[0-9]` of the source. -/
def amountRE : RE :=
  .cat (.nlb isPyDigit)
    (.cat (opt markerRE)
      (.cat (opt wsC)
        (.grp 1 (catAll [rep13d, .star thouGrp, opt decPart]))))

/-- Local-part class `[A-Za-z0-9._%+-]`. -/
def emailLocal (c : Char) : Bool :=
  isAlphaC c || isDigitC c || c = '.' || c = '_' || c = '%' || c = '+' || c = '-'

/-- Domain class `[A-Za-z0-9.-]`. -/
def emailDom (c : Char) : Bool := isAlphaC c || isDigitC c || c = '.' || c = '-'

/-- `[A-Za-z0-9._%+-]+@[A-Za-z0-9.-]+\.[A-Za-z]{2,}`. -/
def emailRE : RE :=
  catAll [plus (.cls emailLocal), lit '@', plus (.cls emailDom), lit '.',
    .cls isAlphaC, .cls isAlphaC, .star (.cls isAlphaC)]

/-- Separator class `[/ -]` of the date rule. -/
def dsep : RE := .cls (fun c => c = '/' || c = '-')

/-- `\d{1,2}` (greedy).  Like the `\b` word classes, the consuming `\d`
of the date rule is modelled on its ASCII fragment, on which it agrees
with Python. -/
def rep12d : RE := .cat digitC (opt digitC)

/-- `\d{2,4}` (greedy: four digits tried first). -/
def rep24d : RE := catAll [digitC, digitC, opt (.cat digitC (opt digitC))]

/-- `\b(\d{1,2}[/ -]\d{1,2}[/ -]\d{2,4}|\d{4}[/ -]\d{1,2}[/ -]\d{1,2})\b`. -/
def dateRE : RE :=
  catAll [.wb,
    .grp 1 (.alt (catAll [rep12d, dsep, rep12d, dsep, rep24d])
      (catAll [catAll [digitC, digitC, digitC, digitC], dsep, rep12d, dsep, rep12d])),
    .wb]

/-- The field map produced by `extract_fields`: four independently
optional attributes. -/
structure FieldMap where
  invoice_number : Option Text
  amount : Option Text
  email : Option Text
  date : Option Text
deriving DecidableEq, Repr

/-- The invoice rule stores capture group 2 (`m.group(2)`), the token
after the label. -/
def invoiceField (text : Text) : Option Text :=
  match reSearch text invoiceRE with
  | some (_, _, caps) =>
    match capSpan caps 2 with
    | some (a, b) => some (slice text a b)
    | none => none
  | none => none

/-- The amount rule stores the whole match, stripped
(`m.group(0).strip()`). -/
def amountField (text : Text) : Option Text :=
  match reSearch text amountRE with
  | some (p, q, _) => some (pyStrip (slice text p q))
  | none => none

/-- The email rule stores the whole match (`m.group(0)`). -/
def emailField (text : Text) : Option Text :=
  match reSearch text emailRE with
  | some (p, q, _) => some (slice text p q)
  | none => none

/-- The date rule stores capture group 1 (`m.group(1)`). -/
def dateField (text : Text) : Option Text :=
  match reSearch text dateRE with
  | some (_, _, caps) =>
    match capSpan caps 1 with
    | some (a, b) => some (slice text a b)
    | none => none
  | none => none

/-- `extract_fields` (main.py lines 47–62): four independent `re.search`
rules populating the field map. -/
def extract_fields (text : Text) : FieldMap :=
  ⟨invoiceField text, amountField text, emailField text, dateField text⟩

/-! ## PDF text extraction and upload dispatch (main.py lines 64–92, 115–140)

The external collaborators are modelled as data: a parsed PDF is its list
of pages, each with its embedded text (`page.extract_text()`, `none` when
the call returns Python `None`) and the page's rasterized image; the OCR
backend and the image decoder are functions into `Option`, where `none`
models a raised exception. -/

/-- Opaque page images, identified abstractly. -/
abbrev Img := Nat

/-- One PDF page: its embedded selectable text and its rasterization. -/
structure Page where
  text : Option Text
  image : Img
deriving DecidableEq, Repr

/-- A parsed PDF document: its pages in document order. -/
structure Pdf where
  pages : List Page
deriving DecidableEq, Repr

/-- The process-wide external dependencies: PIL image decoding,
the pytesseract OCR backend (`none` = the call raises), availability of
pdf2image/poppler rasterization, and PyPDF2 parsing. -/
structure Env where
  decode : List Nat → Option Img
  ocr : Img → Option Text
  raster : Bool
  parsePdf : List Nat → Option Pdf

/-- Python `x or ""` on an optional page text. -/
def orEmpty : Option Text → Text
  | some t => t
  | none => []

/-- Phase 1 of `extract_text_from_pdf`: the loop
`text += (page.extract_text() or "") + "\n"`. -/
def phase1Concat (pdf : Pdf) : Text :=
  (pdf.pages.map fun pg => orEmpty pg.text ++ ['\n']).flatten

/-- Python `"\n".join`. -/
def joinNL : List Text → Text
  | [] => []
  | [t] => t
  | t :: ts => t ++ '\n' :: joinNL ts

/-- The Phase-2 loop `for img in images: ocr_text.append(…)`: OCR each
image in order, stopping at the first raised exception.  Returns the
collected outputs (`none` if the loop raised) and the trace of OCR
invocations actually made. -/
def ocrLoop (ocr : Img → Option Text) : List Img → Option (List Text) × List Img
  | [] => (some [], [])
  | img :: rest =>
    match ocr img with
    | none => (none, [img])
    | some t =>
      let r := ocrLoop ocr rest
      (r.1.map (t :: ·), img :: r.2)

/-- Result of `extract_text_from_pdf`, instrumented with the list of OCR
backend invocations (in order) so that "OCR is never/once-per-page
invoked" is statable. -/
structure PdfResult where
  text : Text
  ocrCalls : List Img
deriving DecidableEq, Repr

/-- `extract_text_from_pdf` (main.py lines 68–92): Phase 1 concatenates
embedded page texts and strips; only if that is empty does Phase 2
rasterize (when pdf2image is importable) and OCR page by page, any
exception being swallowed into empty text. -/
def extract_text_from_pdf (env : Env) (pdf : Pdf) : PdfResult :=
  let t := pyStrip (phase1Concat pdf)
  if t.isEmpty then
    if env.raster then
      match ocrLoop env.ocr (pdf.pages.map (·.image)) with
      | (some outs, calls) => ⟨pyStrip (joinNL outs), calls⟩
      | (none, calls) => ⟨[], calls⟩
    else ⟨[], []⟩
  else ⟨t, []⟩

/-- The media types recognized as images by `upload` (main.py line 129). -/
def imageTypes : List String :=
  ["image/png", "image/jpeg", "image/jpg", "image/webp", "image/bmp", "image/tiff"]

/-- `ocr_image_bytes` (main.py lines 64–66): decode the bytes with PIL and
run pytesseract; `none` models the raised exception when either fails. -/
def ocr_image_bytes (env : Env) (b : List Nat) : Option Text :=
  (env.decode b).bind env.ocr

/-- Caller-facing failures of the text-extraction part of `upload`:
`exn` is an uncaught exception propagating out of the handler,
`unsupported` the 400 "Unsupported file type" response. -/
inductive UploadErr where
  | exn
  | unsupported
deriving DecidableEq, Repr

/-- The text-extraction dispatch of `upload` (main.py lines 128–138):
image types call `ocr_image_bytes` unguarded (an exception propagates),
PDF calls `extract_text_from_pdf` (a PyPDF2 parse failure propagates),
anything else tries `ocr_image_bytes` and turns its failure into the
"Unsupported file type" rejection. -/
def uploadExtract (env : Env) (ct : String) (content : List Nat) :
    Except UploadErr Text :=
  if ct ∈ imageTypes then
    match ocr_image_bytes env content with
    | some t => .ok t
    | none => .error .exn
  else if ct = "application/pdf" then
    match env.parsePdf content with
    | some pdf => .ok (extract_text_from_pdf env pdf).text
    | none => .error .exn
  else
    match ocr_image_bytes env content with
    | some t => .ok t
    | none => .error .unsupported

/-! ## Concrete instances used in witnesses and counterexamples -/

/-- The worked example of the specification's testable properties. -/
def c1Text : Text :=
  "Invoice No: INV-2023-045, contact billing@example.com, $1,250.00 due 12/31/2023".data

/-- The two-character text U+0665 (ARABIC-INDIC DIGIT FIVE) followed by
ASCII `'5'`: its only ASCII digit is immediately preceded by a non-ASCII
Unicode decimal digit. -/
def arabicFiveText : Text := ['٥', '5']

/-- An environment whose image decoder always raises (undecodable bytes)
while the OCR backend itself works. -/
def noDecodeEnv : Env :=
  { decode := fun _ => none, ocr := fun _ => some [], raster := true,
    parsePdf := fun _ => none }

/-- An environment where decoding and OCR both succeed. -/
def okEnv : Env :=
  { decode := fun _ => some 0, ocr := fun _ => some "sample text".data,
    raster := true, parsePdf := fun _ => none }

/-- An environment with a working OCR backend but no rasterization
tooling (pdf2image/poppler missing). -/
def noRasterEnv : Env :=
  { decode := fun _ => some 0, ocr := fun _ => some "sample text".data,
    raster := false, parsePdf := fun _ => none }

/-- An environment whose OCR backend raises exactly on image `1`. -/
def failOnOneEnv : Env :=
  { decode := fun _ => some 0,
    ocr := fun i => if i = 1 then none else some "page text".data,
    raster := true, parsePdf := fun _ => none }

/-- A PDF with embedded text on the first page and none on the second. -/
def pdfWithText : Pdf := ⟨[⟨some "hello".data, 0⟩, ⟨none, 1⟩]⟩

/-- An image-only PDF: no page has any selectable text (one page yields
`None`, the other the empty string). -/
def pdfScanned : Pdf := ⟨[⟨none, 0⟩, ⟨some [], 1⟩]⟩

/-- Textless pages used for the mid-document OCR failure scenario. -/
def pgA : Page := ⟨none, 0⟩

/-- Second textless page, the one whose OCR call raises. -/
def pgB : Page := ⟨none, 1⟩

/-- Third textless page, never reached by the OCR loop. -/
def pgC : Page := ⟨none, 2⟩

/-! ## Engine lemmas

Membership lemmas: an element of the match list witnesses one way the
backtracking engine can match.  They are used to show that a match exists
without computing the whole list on a symbolic input. -/

theorem starRun_stay (body : Nat → Caps → List (Nat × Caps)) (fuel p : Nat)
    (c : Caps) : (p, c) ∈ starRun body fuel p c := by
  cases fuel <;> simp [starRun]

theorem run_star_stay (s : Text) (a : RE) (p : Nat) (c : Caps) :
    (p, c) ∈ run s (.star a) p c := by
  simpa [run] using starRun_stay (fun q c' => run s a q c') (s.length + 1) p c

theorem run_opt_stay (s : Text) (a : RE) (p : Nat) (c : Caps) :
    (p, c) ∈ run s (opt a) p c := by
  simp [opt, run]

theorem run_cat_mem {s : Text} {a b : RE} {p : Nat} {c : Caps}
    {q : Nat} {c' : Caps} {r : Nat × Caps}
    (h1 : (q, c') ∈ run s a p c) (h2 : r ∈ run s b q c') :
    r ∈ run s (.cat a b) p c := by
  simp only [run, List.mem_flatMap]
  exact ⟨(q, c'), h1, h2⟩

theorem run_eps_mem (s : Text) (p : Nat) (c : Caps) :
    (p, c) ∈ run s .eps p c := by
  simp [run]

theorem run_grp_mem {s : Text} {i : Nat} {a : RE} {p q : Nat} {c c' : Caps}
    (h : (q, c') ∈ run s a p c) :
    (q, (i, p, q) :: c') ∈ run s (.grp i a) p c := by
  simp only [run, List.mem_map]
  exact ⟨(q, c'), h, rfl⟩

theorem run_cls_eq {s : Text} {f : Char → Bool} {p : Nat} {c : Caps}
    {ch : Char} (h : s[p]? = some ch) (hf : f ch = true) :
    run s (.cls f) p c = [(p + 1, c)] := by
  simp [run, h, hf]

theorem run_nlb_zero (s : Text) (f : Char → Bool) (c : Caps) :
    run s (.nlb f) 0 c = [(0, c)] := rfl

theorem run_nlb_succ {s : Text} {f : Char → Bool} {q : Nat} {c : Caps}
    {ch : Char} (h : s[q]? = some ch) (hf : f ch = false) :
    run s (.nlb f) (q + 1) c = [(q + 1, c)] := by
  simp [run, h, hf]

/-- If a match exists at a scanned position, the scan succeeds (possibly
earlier). -/
theorem searchAux_isSome (s : Text) (re : RE) :
    ∀ steps p i, p ≤ i → i < p + steps → run s re i [] ≠ [] →
      (searchAux s re steps p).isSome = true := by
  intro steps
  induction steps with
  | zero => intro p i h1 h2 _; omega
  | succ n ih =>
    intro p i h1 h2 hne
    unfold searchAux
    cases hrun : run s re p [] with
    | cons r t => simp
    | nil =>
      have hpi : p ≠ i := by
        intro he; subst he; exact hne hrun
      exact ih (p + 1) i (by omega) (by omega) hne

/-- The scan returns the first position with a match: every strictly
earlier scanned position has an empty match list. -/
theorem searchAux_minimal (s : Text) (re : RE) :
    ∀ steps p st en caps, searchAux s re steps p = some (st, en, caps) →
      p ≤ st ∧ ∀ q, p ≤ q → q < st → run s re q [] = [] := by
  intro steps
  induction steps with
  | zero => intro p st en caps h; simp [searchAux] at h
  | succ n ih =>
    intro p st en caps h
    unfold searchAux at h
    cases hrun : run s re p [] with
    | cons r t =>
      obtain ⟨en0, caps0⟩ := r
      rw [hrun] at h
      simp only [Option.some.injEq, Prod.mk.injEq] at h
      obtain ⟨rfl, rfl, rfl⟩ := h
      exact ⟨le_refl p, fun q hq1 hq2 => absurd hq2 (by omega)⟩
    | nil =>
      rw [hrun] at h
      obtain ⟨h1, h2⟩ := ih (p + 1) st en caps h
      refine ⟨by omega, fun q hq1 hq2 => ?_⟩
      rcases Nat.eq_or_lt_of_le hq1 with he | hlt
      · subst he; exact hrun
      · exact h2 q hlt hq2

/-- If `re.search` matched, the match is the head of the match list at
the start position. -/
theorem searchAux_head (s : Text) (re : RE) :
    ∀ steps p st en caps, searchAux s re steps p = some (st, en, caps) →
      ∃ t, run s re st [] = (en, caps) :: t := by
  intro steps
  induction steps with
  | zero => intro p st en caps h; simp [searchAux] at h
  | succ n ih =>
    intro p st en caps h
    unfold searchAux at h
    cases hrun : run s re p [] with
    | cons r t =>
      obtain ⟨en0, caps0⟩ := r
      rw [hrun] at h
      simp only [Option.some.injEq, Prod.mk.injEq] at h
      obtain ⟨rfl, rfl, rfl⟩ := h
      exact ⟨t, hrun⟩
    | nil =>
      rw [hrun] at h
      exact ih (p + 1) st en caps h

/-! ## `ocrLoop` lemmas -/

/-- When OCR succeeds on every image, the loop visits every image once,
in order, and collects every output. -/
theorem ocrLoop_success (ocr : Img → Option Text) :
    ∀ imgs, (∀ i ∈ imgs, (ocr i).isSome = true) →
      ocrLoop ocr imgs = (some (imgs.map fun i => (ocr i).getD []), imgs) := by
  intro imgs
  induction imgs with
  | nil => intro _; rfl
  | cons img rest ih =>
    intro h
    have hh : (ocr img).isSome = true := h img (List.mem_cons_self img rest)
    obtain ⟨t, ht⟩ := Option.isSome_iff_exists.mp hh
    have := ih fun i hi => h i (List.mem_cons_of_mem img hi)
    simp [ocrLoop, ht, this]

/-- When OCR fails on an image and succeeds on everything before it, the
loop raises there: no collected output, and the trace stops at the failing
image. -/
theorem ocrLoop_failAt (ocr : Img → Option Text) :
    ∀ pre img rest, (∀ i ∈ pre, (ocr i).isSome = true) → ocr img = none →
      ocrLoop ocr (pre ++ img :: rest) = (none, pre ++ [img]) := by
  intro pre
  induction pre with
  | nil => intro img rest _ hf; simp [ocrLoop, hf]
  | cons i0 t ih =>
    intro img rest h hf
    have hh : (ocr i0).isSome = true := h i0 (List.mem_cons_self i0 t)
    obtain ⟨v, hv⟩ := Option.isSome_iff_exists.mp hh
    have := ih img rest (fun i hi => h i (List.mem_cons_of_mem i0 hi)) hf
    simp [ocrLoop, hv, this]

/-- If OCR fails on any image of the list, the loop collects nothing. -/
theorem ocrLoop_fail_none (ocr : Img → Option Text) :
    ∀ imgs, (∃ i ∈ imgs, ocr i = none) → (ocrLoop ocr imgs).1 = none := by
  intro imgs
  induction imgs with
  | nil => intro h; simp at h
  | cons img rest ih =>
    intro h
    cases hi : ocr img with
    | none => simp [ocrLoop, hi]
    | some t =>
      have hr : ∃ i ∈ rest, ocr i = none := by
        obtain ⟨i, hm, hn⟩ := h
        rcases List.mem_cons.mp hm with he | hm'
        · subst he; rw [hi] at hn; exact absurd hn (by simp)
        · exact ⟨i, hm', hn⟩
      simp [ocrLoop, hi, ih hr]

/-! ## The claims -/

set_option maxRecDepth 100000 in
/-- C1 (counterexample): on the spec's worked example the amount field is
`"202"` — the first match of the amount rule lies inside the digits of
`INV-2023-045` — and does not contain `"1,250.00"` as claimed. -/
theorem C1_counterexample :
    (extract_fields c1Text).amount = some "202".data ∧
    ¬ List.IsInfix "1,250.00".data "202".data := by
  decide

set_option maxRecDepth 100000 in
/-- C1 (amended): `extract_fields` on the worked example returns
`invoiceNumber="INV-2023-045"`, `email="billing@example.com"`,
`date="12/31/2023"`, and `amount="202"`: the amount rule's first match in
text order is the digit run `202` inside the invoice number, not the
`$1,250.00` figure. -/
theorem C1_extract_fields_values :
    extract_fields c1Text =
      ⟨some "INV-2023-045".data, some "202".data,
       some "billing@example.com".data, some "12/31/2023".data⟩ := by
  decide

/-- C2: whenever Phase 1's trimmed page-text concatenation is non-empty,
`extract_text_from_pdf` returns exactly that text and performs no OCR
call at all — for every OCR environment and every PDF, including PDFs
where some pages have empty text. -/
theorem C2_phase1_shortcircuits_ocr (env : Env) (pdf : Pdf)
    (h : pyStrip (phase1Concat pdf) ≠ []) :
    extract_text_from_pdf env pdf = ⟨pyStrip (phase1Concat pdf), []⟩ := by
  simp [extract_text_from_pdf, h]

/-- C2 (witness): a PDF with embedded text on one page and an empty
second page takes the Phase-1 path. -/
theorem C2_witness :
    pyStrip (phase1Concat pdfWithText) ≠ [] ∧
    extract_text_from_pdf noRasterEnv pdfWithText =
      ⟨pyStrip (phase1Concat pdfWithText), []⟩ :=
  ⟨by decide, C2_phase1_shortcircuits_ocr noRasterEnv pdfWithText (by decide)⟩

/-- C3: when no page has selectable text and rasterization and OCR
succeed, `extract_text_from_pdf` invokes the OCR backend exactly once per
page, in document page order, and returns the per-page outputs joined
with a newline separator and trimmed. -/
theorem C3_ocr_once_per_page_in_order (env : Env) (pdf : Pdf)
    (h1 : pyStrip (phase1Concat pdf) = [])
    (h2 : env.raster = true)
    (h3 : ∀ pg ∈ pdf.pages, (env.ocr pg.image).isSome = true) :
    extract_text_from_pdf env pdf =
      ⟨pyStrip (joinNL (pdf.pages.map fun pg => (env.ocr pg.image).getD [])),
       pdf.pages.map fun pg => pg.image⟩ := by
  have hL : ∀ i ∈ pdf.pages.map (fun pg => pg.image), (env.ocr i).isSome = true := by
    intro i hi
    obtain ⟨pg, hpg, rfl⟩ := List.mem_map.mp hi
    exact h3 pg hpg
  have hloop := ocrLoop_success env.ocr (pdf.pages.map fun pg => pg.image) hL
  simp [extract_text_from_pdf, h1, h2, hloop, List.map_map, Function.comp_def]

/-- C3 (witness): a two-page image-only PDF under a working OCR backend. -/
theorem C3_witness :
    pyStrip (phase1Concat pdfScanned) = [] ∧
    okEnv.raster = true ∧
    (∀ pg ∈ pdfScanned.pages, (okEnv.ocr pg.image).isSome = true) ∧
    extract_text_from_pdf okEnv pdfScanned =
      ⟨pyStrip (joinNL (pdfScanned.pages.map fun pg => (okEnv.ocr pg.image).getD [])),
       pdfScanned.pages.map fun pg => pg.image⟩ :=
  ⟨by decide, rfl, by decide,
   C3_ocr_once_per_page_in_order okEnv pdfScanned (by decide) rfl (by decide)⟩

/-- C4: on an image-only PDF, if the rasterization tooling is unavailable
or the OCR backend raises on some page, `extract_text_from_pdf` returns
the empty string instead of propagating the failure. -/
theorem C4_ocr_failure_degrades_to_empty (env : Env) (pdf : Pdf)
    (h1 : pyStrip (phase1Concat pdf) = [])
    (h2 : env.raster = false ∨ ∃ pg ∈ pdf.pages, env.ocr pg.image = none) :
    (extract_text_from_pdf env pdf).text = [] := by
  rcases h2 with hr | hf
  · simp [extract_text_from_pdf, h1, hr]
  · cases hrast : env.raster with
    | false => simp [extract_text_from_pdf, h1, hrast]
    | true =>
      have hnone : (ocrLoop env.ocr (pdf.pages.map fun pg => pg.image)).1 = none := by
        apply ocrLoop_fail_none
        obtain ⟨pg, hm, hn⟩ := hf
        exact ⟨pg.image, List.mem_map.mpr ⟨pg, hm, rfl⟩, hn⟩
      rcases hlp : ocrLoop env.ocr (pdf.pages.map fun pg => pg.image) with ⟨fst, snd⟩
      rw [hlp] at hnone
      simp only at hnone
      subst hnone
      simp [extract_text_from_pdf, h1, hrast, hlp]

/-- C4 (witness): the OCR tooling being unavailable on an image-only PDF
yields the empty string. -/
theorem C4_witness :
    pyStrip (phase1Concat pdfScanned) = [] ∧
    (noRasterEnv.raster = false ∨ ∃ pg ∈ pdfScanned.pages, noRasterEnv.ocr pg.image = none) ∧
    (extract_text_from_pdf noRasterEnv pdfScanned).text = [] :=
  ⟨by decide, Or.inl rfl,
   C4_ocr_failure_degrades_to_empty noRasterEnv pdfScanned (by decide) (Or.inl rfl)⟩

/-- C5 (counterexample): for a recognized image media type with bytes the
decoder cannot open, `upload`'s extraction raises (the exception
propagates to the caller) instead of never throwing. -/
theorem C5_counterexample :
    "image/png" ∈ imageTypes ∧
    uploadExtract noDecodeEnv "image/png" [] = .error .exn :=
  ⟨by decide, rfl⟩

/-- C5 (amended): for every recognized image media type, `upload` calls
`ocr_image_bytes` unguarded: when decoding and OCR succeed the OCR output
is returned, and when either fails the exception propagates to the
caller (it is not caught). -/
theorem C5_image_dispatch (env : Env) (ct : String) (b : List Nat)
    (h : ct ∈ imageTypes) :
    uploadExtract env ct b =
      match ocr_image_bytes env b with
      | some t => .ok t
      | none => .error .exn := by
  unfold uploadExtract
  rw [if_pos h]

/-- C5 (witness): a PNG under a working decoder and backend returns the
backend's output. -/
theorem C5_witness :
    "image/png" ∈ imageTypes ∧
    uploadExtract okEnv "image/png" [] =
      (match ocr_image_bytes okEnv [] with
       | some t => Except.ok t
       | none => Except.error UploadErr.exn) :=
  ⟨by decide, C5_image_dispatch okEnv "image/png" [] (by decide)⟩

/-- C6: for a media type that is neither a recognized image type nor PDF,
`upload` first attempts OCR on the bytes as an image; the OCR output is
used as the extracted text when the attempt succeeds, and only when it
fails is the "Unsupported file type" rejection returned. -/
theorem C6_last_resort_dispatch (env : Env) (ct : String) (b : List Nat)
    (h1 : ct ∉ imageTypes) (h2 : ct ≠ "application/pdf") :
    uploadExtract env ct b =
      match ocr_image_bytes env b with
      | some t => .ok t
      | none => .error .unsupported := by
  unfold uploadExtract
  rw [if_neg h1, if_neg h2]

/-- C6 (witness): a `text/plain` upload whose bytes do not decode as an
image is rejected as unsupported. -/
theorem C6_witness :
    "text/plain" ∉ imageTypes ∧ "text/plain" ≠ "application/pdf" ∧
    uploadExtract noDecodeEnv "text/plain" [] =
      (match ocr_image_bytes noDecodeEnv [] with
       | some t => Except.ok t
       | none => Except.error UploadErr.unsupported) :=
  ⟨by decide, by decide,
   C6_last_resort_dispatch noDecodeEnv "text/plain" [] (by decide) (by decide)⟩

/-- C7 (counterexample): on the text `" 5"` the amount rule's full
matched span is `" 5"` (the optional `\s?` consumed the space), but the
stored field value is the stripped `"5"`, so the stored value is not the
full matched span as claimed. -/
theorem C7_counterexample :
    reSearch " 5".data amountRE = some (0, 2, [(1, 1, 2)]) ∧
    slice " 5".data 0 2 = " 5".data ∧
    (extract_fields " 5".data).amount = some "5".data ∧
    "5".data ≠ " 5".data := by
  decide

/-- C7 (amended): whenever the amount rule matches, the stored amount
value is the whitespace-trimmed full matched span — the matched currency
marker (when present) together with the number, not just the numeric
capture group — and the match taken is the first occurrence: no position
strictly before the match start admits any match. -/
theorem C7_amount_stores_stripped_span (s : Text) (st en : Nat) (caps : Caps)
    (h : reSearch s amountRE = some (st, en, caps)) :
    (extract_fields s).amount = some (pyStrip (slice s st en)) ∧
    ∀ q, q < st → run s amountRE q [] = [] := by
  constructor
  · show amountField s = _
    unfold amountField
    rw [h]
  · have hmin := searchAux_minimal s amountRE (s.length + 1) 0 st en caps h
    exact fun q hq => hmin.2 q (Nat.zero_le q) hq

/-- C7 (witness): on `"$5"` the match spans positions 0–2, the numeric
group spans 1–2, and the stored value `"$5"` keeps the marker. -/
theorem C7_witness :
    reSearch "$5".data amountRE = some (0, 2, [(1, 1, 2)]) ∧
    ((extract_fields "$5".data).amount = some (pyStrip (slice "$5".data 0 2)) ∧
     ∀ q, q < 0 → run "$5".data amountRE q [] = []) :=
  ⟨by decide, C7_amount_stores_stripped_span "$5".data 0 2 [(1, 1, 2)] (by decide)⟩

/-- C8 (counterexample): the claim fails on the two-character text
U+0665 `'5'`: it contains the ASCII decimal digit `'5'`, yet the amount
field stays unset, because Python's negative lookbehind `(?<!\d)` is
Unicode-aware, the Arabic-Indic digit before the `'5'` is a decimal
digit, and no other position can match. -/
theorem C8_counterexample :
    (∃ c ∈ arabicFiveText, isDigitC c = true) ∧
    (extract_fields arabicFiveText).amount = none := by
  decide

/-- C8 (amended): any text containing an ASCII decimal digit that is not
immediately preceded by a Unicode decimal digit gets a populated amount
field: at such a digit the Unicode-aware negative lookbehind holds, the
amount rule needs no currency marker, no decimal part and no further
context, so a bare short digit run matches. -/
theorem C8_digit_implies_amount (s : Text) (i : Nat) (ch : Char)
    (hget : s[i]? = some ch) (hdig : isDigitC ch = true)
    (hprev : i = 0 ∨ ∃ ch', s[i - 1]? = some ch' ∧ isPyDigit ch' = false) :
    ((extract_fields s).amount).isSome = true := by
  have hdim : ((i + 1, ([] : Caps))) ∈ run s digitC i [] := by
    rw [show digitC = RE.cls isDigitC from rfl, run_cls_eq hget hdig]
    simp
  have hrep : ((i + 1, ([] : Caps))) ∈ run s rep13d i [] :=
    run_cat_mem hdim (run_opt_stay _ _ _ _)
  have hbody : ((i + 1, ([] : Caps))) ∈
      run s (catAll [rep13d, .star thouGrp, opt decPart]) i [] := by
    show _ ∈ run s (.cat rep13d (.cat (.star thouGrp) (.cat (opt decPart) .eps))) i []
    exact run_cat_mem hrep (run_cat_mem (run_star_stay _ _ _ _)
      (run_cat_mem (run_opt_stay _ _ _ _) (run_eps_mem _ _ _)))
  have hgrp : ((i + 1, [(1, i, i + 1)]) : Nat × Caps) ∈
      run s (.grp 1 (catAll [rep13d, .star thouGrp, opt decPart])) i [] :=
    run_grp_mem hbody
  have hnlb : ((i, ([] : Caps))) ∈ run s (.nlb isPyDigit) i [] := by
    rcases hprev with h0 | hprev
    · subst h0
      rw [run_nlb_zero]
      simp
    · cases i with
      | zero =>
        rw [run_nlb_zero]
        simp
      | succ j =>
        obtain ⟨ch', hget', hnd'⟩ := hprev
        rw [run_nlb_succ (by simpa using hget') hnd']
        simp
  have hfull : ((i + 1, [(1, i, i + 1)]) : Nat × Caps) ∈ run s amountRE i [] := by
    show _ ∈ run s (.cat (.nlb isPyDigit) (.cat (opt markerRE) (.cat (opt wsC)
      (.grp 1 (catAll [rep13d, .star thouGrp, opt decPart]))))) i []
    exact run_cat_mem hnlb (run_cat_mem (run_opt_stay _ _ _ _)
      (run_cat_mem (run_opt_stay _ _ _ _) hgrp))
  have hne : run s amountRE i [] ≠ [] := List.ne_nil_of_mem hfull
  have hilen : i < s.length := by
    by_contra hcon
    rw [List.getElem?_eq_none (by omega)] at hget
    exact Option.noConfusion hget
  have hS : (searchAux s amountRE (s.length + 1) 0).isSome = true :=
    searchAux_isSome s amountRE (s.length + 1) 0 i (Nat.zero_le i) (by omega) hne
  obtain ⟨⟨st, en, caps⟩, hsome⟩ := Option.isSome_iff_exists.mp hS
  show (amountField s).isSome = true
  unfold amountField
  rw [show reSearch s amountRE = searchAux s amountRE (s.length + 1) 0 from rfl, hsome]
  rfl

/-- C8 (witness): in `"a7"` the digit `'7'` at index 1 is preceded by
`'a'`, which is not a Unicode decimal digit, and the amount field is
populated. -/
theorem C8_witness :
    ("a7".data[1]? = some '7' ∧ isDigitC '7' = true ∧
      ((1 : Nat) = 0 ∨ ∃ ch', "a7".data[1 - 1]? = some ch' ∧ isPyDigit ch' = false)) ∧
    ((extract_fields "a7".data).amount).isSome = true :=
  ⟨⟨by decide, by decide, Or.inr ⟨'a', by decide, by decide⟩⟩,
   C8_digit_implies_amount "a7".data 1 '7' (by decide) (by decide)
     (Or.inr ⟨'a', by decide, by decide⟩)⟩

/-- C9: on the exact text `"invoice number"` the optional label group
backtracks to empty and the token pattern consumes the label word, so the
invoice-number field captures `"number"` itself. -/
theorem C9_label_word_captured :
    (extract_fields "invoice number".data).invoice_number = some "number".data := by
  decide

/-- C10: the Phase-2 OCR fallback is all-or-nothing: if the backend
succeeds on every page before some page and raises on that page, the
whole result is the empty string — the OCR text already produced is
discarded — and the backend was invoked exactly on the pages up to and
including the failing one, in order. -/
theorem C10_all_or_nothing (env : Env) (pre post : List Page) (pg : Page)
    (h1 : pyStrip (phase1Concat ⟨pre ++ pg :: post⟩) = [])
    (h2 : env.raster = true)
    (hpre : ∀ q ∈ pre, (env.ocr q.image).isSome = true)
    (hfail : env.ocr pg.image = none) :
    extract_text_from_pdf env ⟨pre ++ pg :: post⟩ =
      ⟨[], (pre ++ [pg]).map fun q => q.image⟩ := by
  have hL : ∀ i ∈ pre.map (fun q => q.image), (env.ocr i).isSome = true := by
    intro i hi
    obtain ⟨q, hq, rfl⟩ := List.mem_map.mp hi
    exact hpre q hq
  have hloop := ocrLoop_failAt env.ocr (pre.map fun q => q.image) pg.image
    (post.map fun q => q.image) hL hfail
  simp only [List.map_append, List.map_cons] at hloop ⊢
  simp [extract_text_from_pdf, h1, h2, hloop]

/-- C10 (witness): a three-page image-only PDF whose backend raises on
the second page returns empty text with OCR invoked on pages one and two
only. -/
theorem C10_witness :
    pyStrip (phase1Concat ⟨[pgA] ++ pgB :: [pgC]⟩) = [] ∧
    failOnOneEnv.raster = true ∧
    (∀ q ∈ [pgA], (failOnOneEnv.ocr q.image).isSome = true) ∧
    failOnOneEnv.ocr pgB.image = none ∧
    extract_text_from_pdf failOnOneEnv ⟨[pgA] ++ pgB :: [pgC]⟩ =
      ⟨[], ([pgA] ++ [pgB]).map fun q => q.image⟩ :=
  ⟨by decide, rfl, by decide, by decide,
   C10_all_or_nothing failOnOneEnv [pgA] [pgC] pgB (by decide) rfl
     (by decide) (by decide)⟩

end DocIntel
